import Mathlib

/-!
Shallow embedding of the session-state logic of `src/app.py` (a browser tool that
uploads an image, extracts its text via a recognition service, and generates a
translated image via a generation service).  The stateful core lives in `main`
(upload/reset handling, memoized recognition, per-language memoized translation,
view-language selection), together with the credential gate and the multi-shape
response parser `generate_translated_image`.
-/

namespace ImageRecSAP

/-- Image artifacts are opaque to the state logic; we model them by `Nat` so that
all state operations stay decidable. -/
abbrev Img := Nat

/-- Python truthiness of an optional string: `None` and the empty string are falsy. -/
def pyTruthyStr : Option String → Bool
  | none => false
  | some s => !s.isEmpty

/-- Per-session state kept in `st.session_state` (app.py lines 240-258):
the cached transcription, the language-to-image cache (an insertion-ordered
association list, mirroring a Python dict), the current original image, the
stored identity key of the upload, and the view-language selection. -/
structure AppState where
  recognized_text : Option String
  generated_images : List (String × Img)
  original_image : Option Img
  current_file_id : Option String
  view_language : Option String
deriving DecidableEq

/-- All five slots are initialized to `None` / empty (app.py lines 241-250). -/
def initState : AppState :=
  { recognized_text := none, generated_images := [], original_image := none,
    current_file_id := none, view_language := none }

/-- Identity key of an upload: `uploaded_file.name + str(uploaded_file.size)`
(app.py line 253). -/
def compute_file_id (name : String) (size : Nat) : String :=
  name ++ toString size

/-- Keys of the language-to-image cache, in insertion order. -/
def keysOf (gs : List (String × Img)) : List String :=
  gs.map Prod.fst

/-- Dict lookup on the language-to-image cache. -/
def lookupLang (gs : List (String × Img)) (l : String) : Option Img :=
  (gs.find? (fun p => p.1 == l)).map Prod.snd

/-- Upload handling (app.py lines 252-261): if the stored identity differs from
the freshly computed one, clear the transcription, the cache and the view
selection and store the new identity; in either case store the decoded image as
the current original. -/
def uploadImage (s : AppState) (name : String) (size : Nat) (image : Img) : AppState :=
  let fid := compute_file_id name size
  let s' :=
    if s.current_file_id = some fid then s
    else { s with recognized_text := none, generated_images := [],
                  view_language := none, current_file_id := some fid }
  { s' with original_image := some image }

/-- View-pane rendering (app.py lines 288-305).  When the cache is non-empty the
stored view language is first normalized to the first cached language if it is
falsy or not cached, and then the selector widget stores the user's choice; the
widget can only yield one of the cached languages, so a choice outside them
leaves the normalized value in place. -/
def selectViewLanguage (s : AppState) (choice : String) : AppState :=
  if s.generated_images = [] then s
  else
    let available := keysOf s.generated_images
    let vl0 :=
      if pyTruthyStr s.view_language = false ∨ (s.view_language.getD "") ∉ available then
        available.head?
      else s.view_language
    let selected := if choice ∈ available then choice else vl0.getD ""
    { s with view_language := some selected }

/-- Outcome of one click of the process button: the resulting state, how many
times each external service was invoked, and the error messages shown. -/
structure ProcResult where
  state : AppState
  recCalls : Nat
  transCalls : Nat
  errors : List String
deriving DecidableEq

/-- Step 2 of the process handler (app.py lines 362-383): if the target language
is already cached, only the view selection is moved to it (lines 378-383);
otherwise the generation service is invoked once and, on a truthy result, the
pair is inserted and the view selection moves to the target (lines 371-375); on
a falsy result nothing is stored and an error is shown (lines 376-377). -/
def translateStep (translateFn : Img → String → String → Option Img)
    (s : AppState) (image : Img) (extracted : String) (target : String)
    (rc : Nat) : ProcResult :=
  if target ∈ keysOf s.generated_images then
    { state := { s with view_language := some target },
      recCalls := rc, transCalls := 0, errors := [] }
  else
    match translateFn image extracted target with
    | some gimg =>
        { state := { s with generated_images := s.generated_images ++ [(target, gimg)],
                            view_language := some target },
          recCalls := rc, transCalls := 1, errors := [] }
    | none =>
        { state := s, recCalls := rc, transCalls := 1,
          errors := ["Failed to generate image. Please check model availability."] }

/-- The process-button handler (app.py lines 348-383).  `image` is the image
decoded from the current upload; line 261 stores that same image in
`original_image`, so it is also the image line 365 hands to the generation
service.  Step 1 (lines 349-360): reuse the cached transcription when truthy,
otherwise invoke the recognition service once; a falsy result shows an error and
returns without touching the state. -/
def processImage (recognizeFn : Img → Option String)
    (translateFn : Img → String → String → Option Img)
    (s : AppState) (image : Img) (target : String) : ProcResult :=
  if pyTruthyStr s.recognized_text then
    translateStep translateFn s image (s.recognized_text.getD "") target 0
  else
    let r := recognizeFn image
    if pyTruthyStr r then
      let extracted := r.getD ""
      translateStep translateFn { s with recognized_text := some extracted }
        image extracted target 1
    else
      { state := s, recCalls := 1, transCalls := 0,
        errors := ["Failed to recognize text. Please try again."] }

/-- The fixed target-language list offered by the selector (app.py line 264). -/
def languages : List String :=
  ["Spanish", "French", "German", "Italian", "Japanese", "Korean", "Chinese", "Hindi"]

/-- Sample state: one cached translation, identity "old.png7". -/
def sampleOld : AppState :=
  { recognized_text := some "OPEN", generated_images := [("German", 1)],
    original_image := some 3, current_file_id := some "old.png7",
    view_language := some "German" }

/-- Sample state: one cached translation, identity "sign.png1024". -/
def sampleSign : AppState :=
  { recognized_text := some "OPEN", generated_images := [("German", 1)],
    original_image := some 3, current_file_id := some "sign.png1024",
    view_language := some "German" }

/-- Sample state: one cached translation, identity "a12" (as produced by the
upload ("a1", 2)). -/
def sampleA12 : AppState :=
  { recognized_text := some "OPEN", generated_images := [("German", 1)],
    original_image := some 3, current_file_id := some (compute_file_id "a1" 2),
    view_language := some "German" }

/-- Outcome of the credential gate at the top of `main` (app.py lines 196-224):
either the session halts after showing the configuration error and the setup
instructions (lines 210-222, `return` before any service is configured), or it
proceeds and configures the client with the resolved key (line 224). -/
inductive ConfigOutcome where
  | haltedWithInstructions
  | proceed (key : String)
deriving DecidableEq

/-- Credential resolution (app.py lines 197-208): take the key from the platform
secret store when it is present and truthy (a raised lookup error is treated as
absence, lines 200-204), otherwise fall back to the environment variable. -/
def resolveApiKey (secrets env : Option String) : Option String :=
  if pyTruthyStr secrets then secrets else env

/-- The credential gate (app.py lines 210-224): a falsy resolved key halts the
session before any network call; a truthy one is handed to the client setup. -/
def configCheck (secrets env : Option String) : ConfigOutcome :=
  let k := resolveApiKey secrets env
  if pyTruthyStr k then .proceed (k.getD "") else .haltedWithInstructions

/-- One part of a generation-service response (app.py lines 150-158): it may
carry a direct image payload or an inline binary payload; the binary payload is
modelled after decoding. -/
structure GPart where
  image : Option Img
  inline_data : Option Img
deriving DecidableEq

/-- A generation-service response (app.py lines 148-170): a list of parts, a
possible list of images, and possible descriptive text; an attribute that is
missing or raises on access is modelled as absent/empty. -/
structure GResponse where
  parts : List GPart
  images : List Img
  text : Option String
deriving DecidableEq

/-- Result of the response parser: an image, or a failure marker optionally
carrying the warning shown when the service answered with text. -/
inductive GenResult where
  | image (i : Img)
  | failure (warning : Option String)
deriving DecidableEq

/-- The parts loop of `generate_translated_image` (app.py lines 149-158): the
first part holding a direct image payload or an inline binary payload wins, the
direct payload checked first. -/
def scanParts : List GPart → Option Img
  | [] => none
  | p :: ps =>
    match p.image with
    | some i => some i
    | none =>
      match p.inline_data with
      | some i => some i
      | none => scanParts ps

/-- Response handling of `generate_translated_image` (app.py lines 148-172):
probe the parts for a direct or inline image payload, fall back to a list of
images, then warn when the service returned truthy text instead of an image,
and otherwise return the failure marker silently. -/
def generate_translated_image (r : GResponse) : GenResult :=
  match scanParts r.parts with
  | some i => .image i
  | none =>
    match r.images with
    | i :: _ => .image i
    | [] =>
      match r.text with
      | some t =>
          if t.isEmpty then .failure none
          else .failure (some ("Model returned text instead of image: " ++ t))
      | none => .failure none

/-- A sequence of process-button clicks within one session (no re-upload in
between): each click runs the handler on the state left by the previous one;
the second component accumulates the number of recognition-service calls. -/
def runProcesses (rf : Img → Option String) (tf : Img → String → String → Option Img) :
    AppState → List (Img × String) → AppState × Nat
  | s, [] => (s, 0)
  | s, (image, target) :: rest =>
    let r := processImage rf tf s image target
    let tail := runProcesses rf tf r.state rest
    (tail.1, r.recCalls + tail.2)

/-- The view-selection invariant: an empty cache forces an undefined view
selection; a non-empty cache forces a defined, non-empty view selection that is
one of the cached keys; and every cached key is a non-empty string (the
selector only offers the fixed language list). -/
abbrev viewInv (s : AppState) : Prop :=
  (s.generated_images = [] → s.view_language = none) ∧
  (s.generated_images ≠ [] →
    (s.view_language.getD "") ∈ keysOf s.generated_images ∧
    s.view_language ≠ none ∧ s.view_language ≠ some "") ∧
  (∀ p ∈ s.generated_images, p.1 ≠ "")

/-- States reachable from the initial session state by any sequence of uploads,
view selections and process clicks; the process target always comes from the
fixed language selector (app.py lines 264-273), while the services invoked may
answer differently on every click. -/
inductive Reachable : AppState → Prop where
  | init : Reachable initState
  | upload (s : AppState) (name : String) (size : Nat) (image : Img) :
      Reachable s → Reachable (uploadImage s name size image)
  | view (s : AppState) (choice : String) :
      Reachable s → Reachable (selectViewLanguage s choice)
  | process (s : AppState) (rf : Img → Option String)
      (tf : Img → String → String → Option Img) (image : Img) (target : String) :
      target ∈ languages → Reachable s →
      Reachable (processImage rf tf s image target).state

/-- Recognition service that always answers "OPEN". -/
def recogOK : Img → Option String := fun _ => some "OPEN"

/-- Recognition service that always fails. -/
def recogBad : Img → Option String := fun _ => none

/-- Generation service that always answers image 9. -/
def transOK : Img → String → String → Option Img := fun _ _ _ => some 9

/-- Generation service that always fails. -/
def transBad : Img → String → String → Option Img := fun _ _ _ => none

/-- Sample state: two cached translations, view selection on "German". -/
def c3State : AppState :=
  { recognized_text := some "OPEN", generated_images := [("German", 1), ("French", 2)],
    original_image := some 3, current_file_id := some "sign.png1024",
    view_language := some "German" }

/-- C1: for every session, uploading an image whose identity key differs from the
stored identity resets the store: the transcription becomes absent, the
language-to-image cache becomes empty, the view selection becomes undefined, and
the new identity is stored as current. -/
theorem C1_new_identity_resets (s : AppState) (name : String) (size : Nat) (image : Img)
    (h : s.current_file_id ≠ some (compute_file_id name size)) :
    (uploadImage s name size image).recognized_text = none ∧
    (uploadImage s name size image).generated_images = [] ∧
    (uploadImage s name size image).view_language = none ∧
    (uploadImage s name size image).current_file_id = some (compute_file_id name size) := by
  simp [uploadImage, if_neg h]

/-- Concrete instance of `C1_new_identity_resets`: uploading ("sign.png", 1024)
over a state whose identity is "old.png7" clears everything. -/
theorem C1_new_identity_resets_witness :
    sampleOld.current_file_id ≠ some (compute_file_id "sign.png" 1024) ∧
    ((uploadImage sampleOld "sign.png" 1024 5).recognized_text = none ∧
      (uploadImage sampleOld "sign.png" 1024 5).generated_images = [] ∧
      (uploadImage sampleOld "sign.png" 1024 5).view_language = none ∧
      (uploadImage sampleOld "sign.png" 1024 5).current_file_id
        = some (compute_file_id "sign.png" 1024)) :=
  ⟨by decide, C1_new_identity_resets sampleOld "sign.png" 1024 5 (by decide)⟩

/-- C6: uploading an image whose identity key equals the stored identity performs
no reset: the transcription, the language-to-image cache, the view selection and
the stored identity are exactly as before the upload. -/
theorem C6_same_identity_preserves (s : AppState) (name : String) (size : Nat) (image : Img)
    (h : s.current_file_id = some (compute_file_id name size)) :
    (uploadImage s name size image).recognized_text = s.recognized_text ∧
    (uploadImage s name size image).generated_images = s.generated_images ∧
    (uploadImage s name size image).view_language = s.view_language ∧
    (uploadImage s name size image).current_file_id = s.current_file_id := by
  simp [uploadImage, if_pos h]

/-- Concrete instance of `C6_same_identity_preserves`: re-uploading
("sign.png", 1024) over a state whose identity is already "sign.png1024" keeps
the cached transcription, the cache and the view selection. -/
theorem C6_same_identity_preserves_witness :
    sampleSign.current_file_id = some (compute_file_id "sign.png" 1024) ∧
    ((uploadImage sampleSign "sign.png" 1024 5).recognized_text = sampleSign.recognized_text ∧
      (uploadImage sampleSign "sign.png" 1024 5).generated_images = sampleSign.generated_images ∧
      (uploadImage sampleSign "sign.png" 1024 5).view_language = sampleSign.view_language ∧
      (uploadImage sampleSign "sign.png" 1024 5).current_file_id = sampleSign.current_file_id) :=
  ⟨by decide, C6_same_identity_preserves sampleSign "sign.png" 1024 5 (by decide)⟩

/-- C8: the identity key is the concatenation of the file name with the decimal
rendering of the file size; the encoding is not injective: the distinct uploads
("a1", 2) and ("a", 12) share the key "a12", so uploading the second after the
first triggers no reset and the previous image's transcription, cache and view
selection are all retained. -/
theorem C8_identity_collision :
    (∀ (name : String) (size : Nat), compute_file_id name size = name ++ toString size) ∧
    (("a1", 2) : String × Nat) ≠ ("a", 12) ∧
    compute_file_id "a1" 2 = compute_file_id "a" 12 ∧
    ((uploadImage sampleA12 "a" 12 4).recognized_text = some "OPEN" ∧
      (uploadImage sampleA12 "a" 12 4).generated_images = [("German", 1)] ∧
      (uploadImage sampleA12 "a" 12 4).view_language = some "German") :=
  ⟨fun _ _ => rfl, by decide, by decide, by decide⟩

/-- Helper: the parts loop yields an image whenever some part carries a direct
or inline payload. -/
theorem scanParts_isSome_of_payload :
    ∀ ps : List GPart,
      (∃ p ∈ ps, p.image.isSome = true ∨ p.inline_data.isSome = true) →
      (scanParts ps).isSome = true
  | [], h => by
      rcases h with ⟨p, hp, _⟩
      exact absurd hp (List.not_mem_nil p)
  | q :: qs, h => by
      rcases h with ⟨p, hp, hpay⟩
      cases hq : q.image with
      | some i => simp [scanParts, hq]
      | none =>
        cases hq2 : q.inline_data with
        | some i => simp [scanParts, hq, hq2]
        | none =>
          rcases List.mem_cons.mp hp with rfl | hmem
          · rcases hpay with h1 | h1 <;> simp [hq, hq2] at h1
          · simpa [scanParts, hq, hq2] using
              scanParts_isSome_of_payload qs ⟨p, hmem, hpay⟩

/-- Helper: the parts loop yields nothing when no part carries a payload. -/
theorem scanParts_eq_none (ps : List GPart)
    (h : ∀ p ∈ ps, p.image = none ∧ p.inline_data = none) :
    scanParts ps = none := by
  induction ps with
  | nil => rfl
  | cons q qs ih =>
    have hq := h q (List.mem_cons_self q qs)
    simpa [scanParts, hq.1, hq.2] using ih (fun p hp => h p (List.mem_cons_of_mem q hp))

/-- C9: when the credential is falsy in both the platform secret store and the
environment the session halts with the configuration error and setup
instructions (before any network call); when the secret store holds a truthy
credential it is used in preference to the environment variable. -/
theorem C9_credential_gate (secrets env : Option String) :
    (pyTruthyStr secrets = false → pyTruthyStr env = false →
      configCheck secrets env = .haltedWithInstructions) ∧
    (∀ k : String, secrets = some k → pyTruthyStr secrets = true →
      configCheck secrets env = .proceed k) := by
  constructor
  · intro h1 h2
    simp [configCheck, resolveApiKey, h1, h2]
  · intro k hk h1
    subst hk
    simp [configCheck, resolveApiKey, h1]

/-- Concrete instances of `C9_credential_gate`: no credential anywhere halts the
session; a credential in the secret store wins over one in the environment. -/
theorem C9_credential_gate_witness :
    configCheck none none = .haltedWithInstructions ∧
    configCheck (some "secret-key") (some "env-key") = .proceed "secret-key" :=
  ⟨(C9_credential_gate none none).1 (by decide) (by decide),
   (C9_credential_gate (some "secret-key") (some "env-key")).2 "secret-key" rfl (by decide)⟩

/-- C10: the translation client's response parser returns an image for each of
the three recognized shapes (a part with a direct image payload, a part with an
inline binary payload, or a list of images), and returns the failure marker when
the response has none of them; when the response instead carries truthy
descriptive text the failure marker comes with the diagnostic warning. -/
theorem C10_response_shape_tolerance (r : GResponse) :
    ((∃ p ∈ r.parts, p.image.isSome = true ∨ p.inline_data.isSome = true) ∨ r.images ≠ [] →
      ∃ i, generate_translated_image r = .image i) ∧
    ((∀ p ∈ r.parts, p.image = none ∧ p.inline_data = none) → r.images = [] →
      ∃ w, generate_translated_image r = .failure w ∧
        (pyTruthyStr r.text = true → w.isSome = true)) := by
  constructor
  · intro h
    cases hscan : scanParts r.parts with
    | some i => exact ⟨i, by simp [generate_translated_image, hscan]⟩
    | none =>
      rcases h with hpart | himg
      · have hs := scanParts_isSome_of_payload r.parts hpart
        rw [hscan] at hs
        simp at hs
      · cases himgs : r.images with
        | nil => exact absurd himgs himg
        | cons i rest => exact ⟨i, by simp [generate_translated_image, hscan, himgs]⟩
  · intro hparts himgs
    have hscan := scanParts_eq_none r.parts hparts
    cases ht : r.text with
    | none =>
      refine ⟨none, by simp [generate_translated_image, hscan, himgs, ht], ?_⟩
      intro htr
      simp [pyTruthyStr] at htr
    | some t =>
      cases hte : t.isEmpty with
      | true =>
        refine ⟨none, by simp [generate_translated_image, hscan, himgs, ht, hte], ?_⟩
        intro htr
        simp [pyTruthyStr, hte] at htr
      | false =>
        exact ⟨some ("Model returned text instead of image: " ++ t),
          by simp [generate_translated_image, hscan, himgs, ht, hte],
          fun _ => rfl⟩

/-- Concrete instances of `C10_response_shape_tolerance`: each of the three
recognized response shapes yields an image, and a text-only response yields the
failure marker with the diagnostic warning. -/
theorem C10_response_shape_tolerance_witness :
    (∃ i, generate_translated_image ⟨[⟨some 5, none⟩], [], none⟩ = .image i) ∧
    (∃ i, generate_translated_image ⟨[⟨none, some 6⟩], [], none⟩ = .image i) ∧
    (∃ i, generate_translated_image ⟨[], [7], none⟩ = .image i) ∧
    (∃ w, generate_translated_image ⟨[], [], some "cannot do that"⟩ = .failure w ∧
      (pyTruthyStr (some "cannot do that") = true → w.isSome = true)) :=
  ⟨(C10_response_shape_tolerance ⟨[⟨some 5, none⟩], [], none⟩).1
      (Or.inl ⟨⟨some 5, none⟩, by decide, Or.inl rfl⟩),
   (C10_response_shape_tolerance ⟨[⟨none, some 6⟩], [], none⟩).1
      (Or.inl ⟨⟨none, some 6⟩, by decide, Or.inr rfl⟩),
   (C10_response_shape_tolerance ⟨[], [7], none⟩).1 (Or.inr (by decide)),
   (C10_response_shape_tolerance ⟨[], [], some "cannot do that"⟩).2
      (by decide) rfl⟩

/-- Helper: when the target language is already cached, the translation step
only moves the view selection to it. -/
theorem translateStep_hit (tf : Img → String → String → Option Img) (s : AppState)
    (image : Img) (extracted target : String) (rc : Nat)
    (hmem : target ∈ keysOf s.generated_images) :
    translateStep tf s image extracted target rc =
      { state := { s with view_language := some target },
        recCalls := rc, transCalls := 0, errors := [] } := by
  unfold translateStep
  rw [if_pos hmem]

/-- Helper: when the target language is not cached and the service succeeds, the
translation step appends the pair and moves the view selection to the target. -/
theorem translateStep_miss_success (tf : Img → String → String → Option Img) (s : AppState)
    (image : Img) (extracted target : String) (rc : Nat) (I : Img)
    (hL : target ∉ keysOf s.generated_images)
    (hf : tf image extracted target = some I) :
    translateStep tf s image extracted target rc =
      { state := { s with generated_images := s.generated_images ++ [(target, I)],
                          view_language := some target },
        recCalls := rc, transCalls := 1, errors := [] } := by
  unfold translateStep
  rw [if_neg hL, hf]

/-- Helper: when the target language is not cached and the service fails, the
translation step changes nothing and reports the error. -/
theorem translateStep_miss_fail (tf : Img → String → String → Option Img) (s : AppState)
    (image : Img) (extracted target : String) (rc : Nat)
    (hL : target ∉ keysOf s.generated_images)
    (hf : tf image extracted target = none) :
    translateStep tf s image extracted target rc =
      { state := s, recCalls := rc, transCalls := 1,
        errors := ["Failed to generate image. Please check model availability."] } := by
  unfold translateStep
  rw [if_neg hL, hf]

/-- Helper: the translation step never touches the cached transcription. -/
theorem translateStep_recognized_text (tf : Img → String → String → Option Img)
    (s : AppState) (image : Img) (extracted target : String) (rc : Nat) :
    (translateStep tf s image extracted target rc).state.recognized_text
      = s.recognized_text := by
  unfold translateStep
  split
  · rfl
  · cases htf : tf image extracted target <;> rfl

/-- Helper: the translation step reports exactly the recognition count it was
handed. -/
theorem translateStep_recCalls (tf : Img → String → String → Option Img)
    (s : AppState) (image : Img) (extracted target : String) (rc : Nat) :
    (translateStep tf s image extracted target rc).recCalls = rc := by
  unfold translateStep
  split
  · rfl
  · cases htf : tf image extracted target <;> rfl

/-- Helper: a false boolean equation refutes the true one. -/
theorem bool_ne_true {b : Bool} (h : b = false) : ¬b = true := by
  rw [h]
  exact Bool.false_ne_true

/-- Helper: a boolean that is not true is false. -/
theorem bool_eq_false {b : Bool} (h : ¬b = true) : b = false := by
  cases b
  · rfl
  · exact absurd rfl h

/-- Helper: with a truthy cached transcription, the process handler goes straight
to the translation step, handing it the stored transcription and a zero
recognition count. -/
theorem processImage_eq_cached (rf : Img → Option String)
    (tf : Img → String → String → Option Img) (s : AppState) (image : Img) (target : String)
    (h : pyTruthyStr s.recognized_text = true) :
    processImage rf tf s image target
      = translateStep tf s image (s.recognized_text.getD "") target 0 := by
  simp only [processImage, if_pos h]

/-- Helper: with a falsy cached transcription and a truthy recognition answer,
the process handler caches the answer and runs the translation step on it, with
one recognition call counted. -/
theorem processImage_eq_fresh (rf : Img → Option String)
    (tf : Img → String → String → Option Img) (s : AppState) (image : Img) (target : String)
    (h : pyTruthyStr s.recognized_text = false) (hr : pyTruthyStr (rf image) = true) :
    processImage rf tf s image target
      = translateStep tf { s with recognized_text := some ((rf image).getD "") } image
          ((rf image).getD "") target 1 := by
  simp only [processImage, if_neg (bool_ne_true h), if_pos hr]

/-- Helper: with a falsy cached transcription and a falsy recognition answer, the
process handler stops after one recognition call, leaving the state untouched
and reporting the error. -/
theorem processImage_eq_recfail (rf : Img → Option String)
    (tf : Img → String → String → Option Img) (s : AppState) (image : Img) (target : String)
    (h : pyTruthyStr s.recognized_text = false) (hr : pyTruthyStr (rf image) = false) :
    processImage rf tf s image target
      = { state := s, recCalls := 1, transCalls := 0,
          errors := ["Failed to recognize text. Please try again."] } := by
  simp only [processImage, if_neg (bool_ne_true h), if_neg (bool_ne_true hr)]

/-- Helper: with a truthy cached transcription, a process click never invokes the
recognition service and keeps the cached transcription. -/
theorem processImage_cached (rf : Img → Option String)
    (tf : Img → String → String → Option Img) (s : AppState) (image : Img) (target : String)
    (h : pyTruthyStr s.recognized_text = true) :
    (processImage rf tf s image target).recCalls = 0 ∧
    (processImage rf tf s image target).state.recognized_text = s.recognized_text := by
  rw [processImage_eq_cached rf tf s image target h]
  exact ⟨translateStep_recCalls tf s image _ target 0,
         translateStep_recognized_text tf s image _ target 0⟩

/-- Helper: with a falsy cached transcription, a process click invokes the
recognition service exactly once. -/
theorem processImage_uncached_calls (rf : Img → Option String)
    (tf : Img → String → String → Option Img) (s : AppState) (image : Img) (target : String)
    (h : pyTruthyStr s.recognized_text = false) :
    (processImage rf tf s image target).recCalls = 1 := by
  by_cases hr : pyTruthyStr (rf image) = true
  · rw [processImage_eq_fresh rf tf s image target h hr]
    exact translateStep_recCalls tf _ image _ target 1
  · rw [processImage_eq_recfail rf tf s image target h (bool_eq_false hr)]

/-- Helper: once the cached transcription is truthy, a whole sequence of process
clicks makes zero recognition calls. -/
theorem runProcesses_cached (rf : Img → Option String)
    (tf : Img → String → String → Option Img) :
    ∀ (acts : List (Img × String)) (s : AppState),
      pyTruthyStr s.recognized_text = true → (runProcesses rf tf s acts).2 = 0
  | [], _, _ => rfl
  | (image, target) :: rest, s, h => by
      have hp := processImage_cached rf tf s image target h
      have hrec : pyTruthyStr (processImage rf tf s image target).state.recognized_text
          = true := by rw [hp.2]; exact h
      simp only [runProcesses]
      rw [hp.1, runProcesses_cached rf tf rest _ hrec]

/-- Helper: looking up a freshly appended key finds the appended value. -/
theorem lookupLang_append_self (gs : List (String × Img)) (L : String) (I : Img)
    (h : L ∉ keysOf gs) : lookupLang (gs ++ [(L, I)]) L = some I := by
  induction gs with
  | nil => simp [lookupLang]
  | cons q qs ih =>
    simp only [keysOf, List.map_cons, List.mem_cons, not_or] at h
    have hbeq : (q.1 == L) = false := by
      rw [beq_eq_false_iff_ne]
      exact fun he => h.1 he.symm
    simp only [List.cons_append, lookupLang, List.find?, hbeq]
    exact ih (by simpa [keysOf] using h.2)

/-- C2: a process click with a truthy cached transcription makes zero recognition
calls and keeps the stored transcription; with a falsy one it makes exactly one;
when that one call fails nothing is cached, the state is untouched and an error
is surfaced (so the next click retries); and a sequence of clicks whose first
recognition succeeds makes exactly one recognition call in total. -/
theorem C2_transcription_memoization (rf : Img → Option String)
    (tf : Img → String → String → Option Img) (s : AppState) (image : Img) (target : String) :
    (pyTruthyStr s.recognized_text = true →
      (processImage rf tf s image target).recCalls = 0 ∧
      (processImage rf tf s image target).state.recognized_text = s.recognized_text) ∧
    (pyTruthyStr s.recognized_text = false →
      (processImage rf tf s image target).recCalls = 1) ∧
    (pyTruthyStr s.recognized_text = false → pyTruthyStr (rf image) = false →
      (processImage rf tf s image target).state = s ∧
      (processImage rf tf s image target).errors ≠ []) ∧
    (∀ rest : List (Img × String), s.recognized_text = none →
      pyTruthyStr (rf image) = true →
      (runProcesses rf tf s ((image, target) :: rest)).2 = 1) := by
  refine ⟨fun h => processImage_cached rf tf s image target h,
          fun h => processImage_uncached_calls rf tf s image target h,
          fun h hr => ?_, fun rest h hr => ?_⟩
  · rw [processImage_eq_recfail rf tf s image target h hr]
    exact ⟨rfl, by simp⟩
  · have h0 : pyTruthyStr s.recognized_text = false := by rw [h]; rfl
    have hrt : pyTruthyStr (processImage rf tf s image target).state.recognized_text
        = true := by
      rw [processImage_eq_fresh rf tf s image target h0 hr,
          translateStep_recognized_text]
      show pyTruthyStr (some ((rf image).getD "")) = true
      cases hrf : rf image with
      | none => rw [hrf] at hr; exact absurd hr (by simp [pyTruthyStr])
      | some u => rw [hrf] at hr; exact hr
    simp only [runProcesses]
    rw [processImage_uncached_calls rf tf s image target h0,
        runProcesses_cached rf tf rest _ hrt]

/-- Concrete instances of `C2_transcription_memoization`: a cached transcription
suppresses recognition; a failed first recognition leaves the state untouched
with an error; two clicks with a successful first recognition invoke the
recognition service exactly once. -/
theorem C2_transcription_memoization_witness :
    ((processImage recogOK transOK c3State 3 "Spanish").recCalls = 0 ∧
      (processImage recogOK transOK c3State 3 "Spanish").state.recognized_text
        = c3State.recognized_text) ∧
    ((processImage recogBad transOK initState 3 "German").state = initState ∧
      (processImage recogBad transOK initState 3 "German").errors ≠ []) ∧
    (runProcesses recogOK transOK initState [(3, "German"), (3, "French")]).2 = 1 :=
  ⟨(C2_transcription_memoization recogOK transOK c3State 3 "Spanish").1 (by decide),
   (C2_transcription_memoization recogBad transOK initState 3 "German").2.2.1
      (by decide) (by decide),
   (C2_transcription_memoization recogOK transOK initState 3 "German").2.2.2
      [(3, "French")] rfl (by decide)⟩

/-- C3, counterexample: processing a language that is already cached does not
leave the view selection unchanged — with the view on "German" and "French"
already cached, a process click targeting "French" makes no translation call but
moves the view selection to "French". -/
theorem C3_counterexample :
    (processImage recogOK transOK c3State 3 "French").transCalls = 0 ∧
    (processImage recogOK transOK c3State 3 "French").state.view_language
      ≠ c3State.view_language := by decide

/-- C3, amended: a process click targeting a language already in the cache makes
no translation call, and (with the transcription cached, as it always is once a
translation exists) its only state change is moving the view selection to that
language. -/
theorem C3_amended_cached_language (rf : Img → Option String)
    (tf : Img → String → String → Option Img) (s : AppState) (image : Img) (L : String)
    (hmem : L ∈ keysOf s.generated_images) :
    (processImage rf tf s image L).transCalls = 0 ∧
    (pyTruthyStr s.recognized_text = true →
      (processImage rf tf s image L).state = { s with view_language := some L }) := by
  constructor
  · by_cases h : pyTruthyStr s.recognized_text = true
    · rw [processImage_eq_cached rf tf s image L h,
          translateStep_hit tf s image (s.recognized_text.getD "") L 0 hmem]
    · by_cases hr : pyTruthyStr (rf image) = true
      · rw [processImage_eq_fresh rf tf s image L (bool_eq_false h) hr,
            translateStep_hit tf { s with recognized_text := some ((rf image).getD "") }
              image ((rf image).getD "") L 1 hmem]
      · rw [processImage_eq_recfail rf tf s image L (bool_eq_false h) (bool_eq_false hr)]
  · intro h
    rw [processImage_eq_cached rf tf s image L h,
        translateStep_hit tf s image (s.recognized_text.getD "") L 0 hmem]

/-- Concrete instance of `C3_amended_cached_language` at the counterexample's
input. -/
theorem C3_amended_witness :
    (processImage recogOK transOK c3State 3 "French").transCalls = 0 ∧
    (processImage recogOK transOK c3State 3 "French").state
      = { c3State with view_language := some "French" } :=
  have h := C3_amended_cached_language recogOK transOK c3State 3 "French" (by decide)
  ⟨h.1, h.2 (by decide)⟩

/-- C4: when the translation step for a not-yet-cached language L fails, the
cache gains no entry, the view selection is unchanged, every previously cached
entry (for any language M) is intact, and — whenever the translation step was
actually reached — an error is surfaced. -/
theorem C4_translation_failure_preserves (rf : Img → Option String)
    (tf : Img → String → String → Option Img) (s : AppState) (image : Img) (L : String)
    (hL : L ∉ keysOf s.generated_images)
    (hfail : ∀ t, tf image t L = none) :
    (processImage rf tf s image L).state.generated_images = s.generated_images ∧
    (processImage rf tf s image L).state.view_language = s.view_language ∧
    (∀ M, lookupLang (processImage rf tf s image L).state.generated_images M
        = lookupLang s.generated_images M) ∧
    (pyTruthyStr s.recognized_text = true → (processImage rf tf s image L).errors ≠ []) := by
  by_cases h : pyTruthyStr s.recognized_text = true
  · rw [processImage_eq_cached rf tf s image L h,
        translateStep_miss_fail tf s image (s.recognized_text.getD "") L 0 hL (hfail _)]
    exact ⟨rfl, rfl, fun _ => rfl, fun _ => by simp⟩
  · by_cases hr : pyTruthyStr (rf image) = true
    · rw [processImage_eq_fresh rf tf s image L (bool_eq_false h) hr,
          translateStep_miss_fail tf { s with recognized_text := some ((rf image).getD "") }
            image ((rf image).getD "") L 1 hL (hfail _)]
      exact ⟨rfl, rfl, fun _ => rfl, fun htr => absurd htr h⟩
    · rw [processImage_eq_recfail rf tf s image L (bool_eq_false h) (bool_eq_false hr)]
      exact ⟨rfl, rfl, fun _ => rfl, fun htr => absurd htr h⟩

/-- Concrete instance of `C4_translation_failure_preserves`: a failed "Italian"
translation leaves the cached "German" and "French" entries and the view
selection intact and surfaces an error. -/
theorem C4_translation_failure_preserves_witness :
    (processImage recogOK transBad c3State 3 "Italian").state.generated_images
        = c3State.generated_images ∧
    (processImage recogOK transBad c3State 3 "Italian").state.view_language
        = c3State.view_language ∧
    lookupLang (processImage recogOK transBad c3State 3 "Italian").state.generated_images
        "German" = lookupLang c3State.generated_images "German" ∧
    (processImage recogOK transBad c3State 3 "Italian").errors ≠ [] :=
  have h := C4_translation_failure_preserves recogOK transBad c3State 3 "Italian"
    (by decide) (fun _ => rfl)
  ⟨h.1, h.2.1, h.2.2.1 "German", h.2.2.2 (by decide)⟩

/-- C5: when the translation step for a not-yet-cached language L succeeds with
image I (the transcription being available, cached or freshly recognized), the
cache is extended with the mapping L to I and the view selection becomes L. -/
theorem C5_translation_success (rf : Img → Option String)
    (tf : Img → String → String → Option Img) (s : AppState) (image : Img) (L : String)
    (I : Img)
    (hL : L ∉ keysOf s.generated_images)
    (hsucc : ∀ t, tf image t L = some I)
    (hrec : pyTruthyStr s.recognized_text = true ∨ pyTruthyStr (rf image) = true) :
    (processImage rf tf s image L).state.generated_images = s.generated_images ++ [(L, I)] ∧
    (processImage rf tf s image L).state.view_language = some L ∧
    lookupLang (processImage rf tf s image L).state.generated_images L = some I := by
  by_cases h : pyTruthyStr s.recognized_text = true
  · rw [processImage_eq_cached rf tf s image L h,
        translateStep_miss_success tf s image (s.recognized_text.getD "") L 0 I hL (hsucc _)]
    exact ⟨rfl, rfl, lookupLang_append_self _ L I hL⟩
  · rcases hrec with h1 | h1
    · exact absurd h1 h
    · rw [processImage_eq_fresh rf tf s image L (bool_eq_false h) h1,
          translateStep_miss_success tf { s with recognized_text := some ((rf image).getD "") }
            image ((rf image).getD "") L 1 I hL (hsucc _)]
      exact ⟨rfl, rfl, lookupLang_append_self _ L I hL⟩

/-- Concrete instance of `C5_translation_success`: a successful "French"
translation over a state caching only "German" appends the pair and moves the
view selection to "French". -/
theorem C5_translation_success_witness :
    (processImage recogOK transOK sampleSign 3 "French").state.generated_images
        = sampleSign.generated_images ++ [("French", 9)] ∧
    (processImage recogOK transOK sampleSign 3 "French").state.view_language
        = some "French" ∧
    lookupLang (processImage recogOK transOK sampleSign 3 "French").state.generated_images
        "French" = some 9 :=
  C5_translation_success recogOK transOK sampleSign 3 "French" 9
    (by decide) (fun _ => rfl) (Or.inl (by decide))

/-- Helper: a non-empty string is truthy. -/
theorem pyTruthy_some_of_ne (l : String) (h : l ≠ "") : pyTruthyStr (some l) = true := by
  have he : l.isEmpty = false := by
    cases he : l.isEmpty
    · rfl
    · exact absurd ((String.isEmpty_iff l).mp he) h
  simp [pyTruthyStr, he]

/-- Helper: when every cached key is non-empty, membership in the key list gives
a non-empty string. -/
theorem ne_empty_of_mem_keysOf (gs : List (String × Img)) (h : ∀ p ∈ gs, p.1 ≠ "")
    (l : String) (hl : l ∈ keysOf gs) : l ≠ "" := by
  rcases List.mem_map.mp hl with ⟨p, hp, rfl⟩
  exact h p hp

/-- Helper: every language offered by the selector is a non-empty string. -/
theorem languages_mem_ne_empty : ∀ t ∈ languages, t ≠ "" := by decide

/-- Helper: the initial state satisfies the view-selection invariant. -/
theorem viewInv_initState : viewInv initState :=
  ⟨fun _ => rfl, fun hne => absurd rfl hne, by simp [initState]⟩

/-- Helper: uploads preserve the view-selection invariant. -/
theorem viewInv_upload (s : AppState) (name : String) (size : Nat) (image : Img)
    (h : viewInv s) : viewInv (uploadImage s name size image) := by
  obtain ⟨h1, h2, h3⟩ := h
  by_cases hid : s.current_file_id = some (compute_file_id name size)
  · simp only [uploadImage, if_pos hid]
    exact ⟨h1, h2, h3⟩
  · simp only [uploadImage, if_neg hid]
    exact ⟨fun _ => rfl, fun hne => absurd rfl hne, by simp⟩

/-- Helper: the translation step preserves the view-selection invariant when the
target language is a non-empty string. -/
theorem viewInv_translateStep (tf : Img → String → String → Option Img) (s : AppState)
    (image : Img) (extracted target : String) (rc : Nat)
    (ht : target ≠ "") (h : viewInv s) :
    viewInv (translateStep tf s image extracted target rc).state := by
  obtain ⟨h1, h2, h3⟩ := h
  by_cases hm : target ∈ keysOf s.generated_images
  · rw [translateStep_hit tf s image extracted target rc hm]
    have hgne : s.generated_images ≠ [] := by
      intro hgg
      rw [hgg] at hm
      exact absurd hm (List.not_mem_nil _)
    exact ⟨fun hgg => absurd hgg hgne, fun _ => ⟨hm, by simp, by simp [ht]⟩, h3⟩
  · cases htf : tf image extracted target with
    | none =>
        rw [translateStep_miss_fail tf s image extracted target rc hm htf]
        exact ⟨h1, h2, h3⟩
    | some g =>
        rw [translateStep_miss_success tf s image extracted target rc g hm htf]
        refine ⟨fun hgg => absurd hgg (by simp), fun _ => ⟨?_, by simp, by simp [ht]⟩, ?_⟩
        · show target ∈ keysOf (s.generated_images ++ [(target, g)])
          simp [keysOf]
        · intro p hp
          rcases List.mem_append.mp hp with hp1 | hp2
          · exact h3 p hp1
          · rw [List.mem_singleton.mp hp2]
            exact ht

/-- Helper: process clicks preserve the view-selection invariant when the target
language is a non-empty string. -/
theorem viewInv_process (rf : Img → Option String) (tf : Img → String → String → Option Img)
    (s : AppState) (image : Img) (target : String)
    (ht : target ≠ "") (h : viewInv s) :
    viewInv (processImage rf tf s image target).state := by
  by_cases hr : pyTruthyStr s.recognized_text = true
  · rw [processImage_eq_cached rf tf s image target hr]
    exact viewInv_translateStep tf s image _ target 0 ht h
  · by_cases hr2 : pyTruthyStr (rf image) = true
    · rw [processImage_eq_fresh rf tf s image target (bool_eq_false hr) hr2]
      exact viewInv_translateStep tf { s with recognized_text := some ((rf image).getD "") }
        image _ target 1 ht ⟨h.1, h.2.1, h.2.2⟩
    · rw [processImage_eq_recfail rf tf s image target (bool_eq_false hr) (bool_eq_false hr2)]
      exact h

/-- Helper: view selections preserve the view-selection invariant. -/
theorem viewInv_select (s : AppState) (choice : String) (h : viewInv s) :
    viewInv (selectViewLanguage s choice) := by
  obtain ⟨h1, h2, h3⟩ := h
  by_cases hg : s.generated_images = []
  · simp only [selectViewLanguage, if_pos hg]
    exact ⟨h1, h2, h3⟩
  · obtain ⟨hmem, hne, hne2⟩ := h2 hg
    have hsel : ∀ sel : String, sel ∈ keysOf s.generated_images →
        viewInv { s with view_language := some sel } := by
      intro sel hs
      have hsne : sel ≠ "" := ne_empty_of_mem_keysOf s.generated_images h3 sel hs
      exact ⟨fun hgg => absurd hgg hg, fun _ => ⟨hs, by simp, by simp [hsne]⟩, h3⟩
    simp only [selectViewLanguage, if_neg hg]
    apply hsel
    by_cases hc : choice ∈ keysOf s.generated_images
    · rw [if_pos hc]
      exact hc
    · rw [if_neg hc]
      by_cases hnorm : pyTruthyStr s.view_language = false ∨
          (s.view_language.getD "") ∉ keysOf s.generated_images
      · rw [if_pos hnorm]
        cases hk : keysOf s.generated_images with
        | nil =>
            rw [hk] at hmem
            exact absurd hmem (List.not_mem_nil _)
        | cons a as => simp
      · rw [if_neg hnorm]
        exact hmem

/-- Helper: under the invariant, a view selection outside the cached keys leaves
the view language unchanged. -/
theorem selectView_not_cached_noop (s : AppState) (choice : String) (h : viewInv s)
    (hc : choice ∉ keysOf s.generated_images) :
    (selectViewLanguage s choice).view_language = s.view_language := by
  obtain ⟨h1, h2, h3⟩ := h
  by_cases hg : s.generated_images = []
  · simp only [selectViewLanguage, if_pos hg]
  · obtain ⟨hmem, hne, hne2⟩ := h2 hg
    simp only [selectViewLanguage, if_neg hg]
    rw [if_neg hc]
    cases hv : s.view_language with
    | none => exact absurd hv hne
    | some l =>
        have hl : l ≠ "" := by
          intro he
          rw [hv, he] at hne2
          exact hne2 rfl
        have hnorm : ¬(pyTruthyStr (some l) = false ∨
            ((some l).getD "") ∉ keysOf s.generated_images) := by
          rintro (hA | hB)
          · rw [pyTruthy_some_of_ne l hl] at hA
            exact absurd hA (by decide)
          · rw [hv] at hmem
            exact hB hmem
        rw [if_neg hnorm]
        rfl

/-- C7: in every reachable state, a non-empty cache forces the view selection to
be one of the cached keys and an empty cache forces it to be undefined; and in
every reachable state, selecting a view language that is not cached is a no-op
on the view selection. -/
theorem C7_view_selection_invariant :
    (∀ s : AppState, Reachable s →
      (s.generated_images = [] → s.view_language = none) ∧
      (s.generated_images ≠ [] →
        ∃ l, s.view_language = some l ∧ l ∈ keysOf s.generated_images)) ∧
    (∀ (s : AppState) (choice : String), Reachable s →
      choice ∉ keysOf s.generated_images →
      (selectViewLanguage s choice).view_language = s.view_language) := by
  have hinv : ∀ s : AppState, Reachable s → viewInv s := by
    intro s h
    induction h with
    | init => exact viewInv_initState
    | upload s name size image _ ih => exact viewInv_upload s name size image ih
    | view s choice _ ih => exact viewInv_select s choice ih
    | process s rf tf image target hmem _ ih =>
        exact viewInv_process rf tf s image target (languages_mem_ne_empty target hmem) ih
  constructor
  · intro s h
    obtain ⟨h1, h2, _⟩ := hinv s h
    refine ⟨h1, fun hg => ?_⟩
    obtain ⟨hmem, hne, _⟩ := h2 hg
    cases hv : s.view_language with
    | none => exact absurd hv hne
    | some l =>
        refine ⟨l, rfl, ?_⟩
        rw [hv] at hmem
        exact hmem
  · intro s choice h hc
    exact selectView_not_cached_noop s choice (hinv s h) hc

/-- Concrete instance of `C7_view_selection_invariant` at the (reachable) initial
state: an empty cache has an undefined view selection, and selecting "German"
with nothing cached changes nothing. -/
theorem C7_view_selection_invariant_witness :
    (initState.generated_images = [] → initState.view_language = none) ∧
    (selectViewLanguage initState "German").view_language = initState.view_language :=
  ⟨(C7_view_selection_invariant.1 initState Reachable.init).1,
   C7_view_selection_invariant.2 initState "German" Reachable.init (by decide)⟩

end ImageRecSAP
